import Mathlib

/-!
Verification of the GitHub listing helpers (src/github.py) and the
schema field factories (src/schemas.py) of this repository.

The three listing functions are modelled as fuel-indexed functions over an
abstract HTTP API.  The API is a function from the page number (the only
request parameter that varies during one call) to the outcome of the GET
request: a response with a status code and a JSON body, or one of the
`requests` exception classes.  A Python exception raised to the caller is
modelled as `PyResult.error msg` carrying the exception's text (all raised
exceptions are plain untyped `Exception`s in the source).  `none` from the
fuel-indexed function means the recursion did not finish within the given
fuel.  Each function also returns the list of HTTP requests it issued, in
order, so that request-level properties (timeout, no retry) can be stated.
-/

namespace Github

/-- A JSON object's (or array item's) fields, modelled as key/value pairs
with string values (the only values the code reads are strings). -/
abbrev Item := List (String × String)

/-- Python `d[k]` / `item[k]` lookup on an object. -/
def lookupKey (it : Item) (k : String) : Option String :=
  match it with
  | [] => Option.none
  | (k', v) :: rest => if k' = k then Option.some v else lookupKey rest k

/-- JSON body of a response: an array of items or a single object. -/
inductive Body where
  | arr (items : List Item)
  | obj (fields : Item)
deriving DecidableEq, Repr

/-- Outcome of one `requests.get` call: a response, or one of the
exception classes the source catches. -/
inductive ReqResult where
  | resp (status : Nat) (body : Body)
  | timeout (msg : String)
  | tooManyRedirects (msg : String)
  | requestError (msg : String)
deriving DecidableEq, Repr

/-- Result of a Python call: a return value, or a raised (untyped)
`Exception` carrying a message string. -/
inductive PyResult (α : Type) where
  | ok (v : α)
  | error (msg : String)
deriving DecidableEq, Repr

/-- A query-string parameter value. -/
inductive ParamVal where
  | num (n : Nat)
  | str (s : String)
deriving DecidableEq, Repr

/-- One HTTP request as issued by `requests.get`: url, client-side timeout
in seconds, headers and query parameters. -/
structure Request where
  url : String
  timeout : Nat
  headers : List (String × String)
  params : List (String × ParamVal)
deriving DecidableEq, Repr

/-- Python `str(KeyError(k))` text. -/
def keyErrorMsg (k : String) : String := "\x27" ++ k ++ "\x27"

/-- Python `TypeError` text for indexing a string with a string
(`org["login"]` when `org` is a dict key). -/
def strIndexTypeError : String := "string indices must be integers"

/-- Python `TypeError` text for indexing a list with a string
(`orgs_json["message"]` when the body is an array). -/
def listIndexTypeError : String :=
  "list indices must be integers or slices, not str"

/-- The body of the `for` loop shared by the three functions: map every
item to a two-field mapping keyed by `idKey` (`login` for organizations,
`name` for repositories).  `none` models the `KeyError` raised when an
item lacks the key. -/
def mapItems (idKey : String) : List Item → Option (List Item)
  | [] => Option.some []
  | it :: rest =>
    match lookupKey it idKey with
    | Option.none => Option.none
    | Option.some v =>
      match mapItems idKey rest with
      | Option.none => Option.none
      | Option.some ms => Option.some ([("id", v), ("name", v)] :: ms)

/-- The request built by `list_organizations`. -/
def orgsRequest (access_token : String) (page_size page : Nat) : Request :=
  ⟨"https://api.github.com/user/orgs", 10,
    [("Accept", "vnd.github.v3+json"),
     ("Authorization", "token " ++ access_token)],
    [("page", ParamVal.num page), ("per_page", ParamVal.num page_size)]⟩

/-- Embedding of `list_organizations` from `src/github.py`.  Fuel-indexed: `none` in the
first component means the pagination recursion did not terminate within
`fuel` nested calls.  The second component is the trace of issued
requests.  The uncaught-exception paths follow the source's handlers:
the three `requests` exception classes are re-raised as the fixed message
`"Error retrieving Github organizations."`; any other exception `e`
(including the non-200 branch's own raise, and exceptions propagating out
of the recursive call) is re-raised as `Exception(e)`, whose text is
`str(e)`. -/
def list_organizations (api : Nat → ReqResult) (access_token : String)
    (page_size page : Nat) :
    Nat → Option (PyResult (List Item)) × List Request
  | 0 => (Option.none, [])
  | fuel + 1 =>
    let req := orgsRequest access_token page_size page
    let fixed := "Error retrieving Github organizations."
    match api page with
    | ReqResult.timeout _ => (Option.some (PyResult.error fixed), [req])
    | ReqResult.tooManyRedirects _ => (Option.some (PyResult.error fixed), [req])
    | ReqResult.requestError _ => (Option.some (PyResult.error fixed), [req])
    | ReqResult.resp status body =>
      if status ≠ 200 then
        match body with
        | Body.obj fields =>
          match lookupKey fields "message" with
          | Option.some m =>
            (Option.some (PyResult.error ("Error listing organizations: " ++ m)), [req])
          | Option.none =>
            (Option.some (PyResult.error (keyErrorMsg "message")), [req])
        | Body.arr _ =>
          (Option.some (PyResult.error listIndexTypeError), [req])
      else
        match body with
        | Body.obj [] =>
          -- iterating an empty dict runs the loop zero times
          if (0 : Nat) = page_size then
            match list_organizations api access_token page_size (page + 1) fuel with
            | (Option.none, t) => (Option.none, req :: t)
            | (Option.some (PyResult.ok next), t) =>
              (Option.some (PyResult.ok next), req :: t)
            | (Option.some (PyResult.error m), t) =>
              (Option.some (PyResult.error m), req :: t)
          else (Option.some (PyResult.ok []), [req])
        | Body.obj (_ :: _) =>
          -- iterating a non-empty dict yields string keys; `org["login"]`
          -- on a string raises TypeError
          (Option.some (PyResult.error strIndexTypeError), [req])
        | Body.arr items =>
          match mapItems "login" items with
          | Option.none =>
            (Option.some (PyResult.error (keyErrorMsg "login")), [req])
          | Option.some orgs =>
            if orgs.length = page_size then
              match list_organizations api access_token page_size (page + 1) fuel with
              | (Option.none, t) => (Option.none, req :: t)
              | (Option.some (PyResult.ok next), t) =>
                (Option.some (PyResult.ok (orgs ++ next)), req :: t)
              | (Option.some (PyResult.error m), t) =>
                (Option.some (PyResult.error m), req :: t)
            else (Option.some (PyResult.ok orgs), [req])

/-- The request built by `list_user_repos`. -/
def userReposRequest (access_token : String) (page_size page : Nat) : Request :=
  ⟨"https://api.github.com/user/repos", 10,
    [("Accept", "vnd.github.v3+json"),
     ("Authorization", "token " ++ access_token)],
    [("page", ParamVal.num page), ("sort", ParamVal.str "full_name"),
     ("per_page", ParamVal.num page_size), ("type", ParamVal.str "all")]⟩

/-- Embedding of `list_user_repos` from `src/github.py`.  Same shape as
`list_organizations` with the user-repos endpoint, the `name` item key,
the prefix `"Error listing repositories: "` and the fixed message
`"Error retrieving Github repositories for user."`. -/
def list_user_repos (api : Nat → ReqResult) (access_token : String)
    (page_size page : Nat) :
    Nat → Option (PyResult (List Item)) × List Request
  | 0 => (Option.none, [])
  | fuel + 1 =>
    let req := userReposRequest access_token page_size page
    let fixed := "Error retrieving Github repositories for user."
    match api page with
    | ReqResult.timeout _ => (Option.some (PyResult.error fixed), [req])
    | ReqResult.tooManyRedirects _ => (Option.some (PyResult.error fixed), [req])
    | ReqResult.requestError _ => (Option.some (PyResult.error fixed), [req])
    | ReqResult.resp status body =>
      if status ≠ 200 then
        match body with
        | Body.obj fields =>
          match lookupKey fields "message" with
          | Option.some m =>
            (Option.some (PyResult.error ("Error listing repositories: " ++ m)), [req])
          | Option.none =>
            (Option.some (PyResult.error (keyErrorMsg "message")), [req])
        | Body.arr _ =>
          (Option.some (PyResult.error listIndexTypeError), [req])
      else
        match body with
        | Body.obj [] =>
          if (0 : Nat) = page_size then
            match list_user_repos api access_token page_size (page + 1) fuel with
            | (Option.none, t) => (Option.none, req :: t)
            | (Option.some (PyResult.ok next), t) =>
              (Option.some (PyResult.ok next), req :: t)
            | (Option.some (PyResult.error m), t) =>
              (Option.some (PyResult.error m), req :: t)
          else (Option.some (PyResult.ok []), [req])
        | Body.obj (_ :: _) =>
          (Option.some (PyResult.error strIndexTypeError), [req])
        | Body.arr items =>
          match mapItems "name" items with
          | Option.none =>
            (Option.some (PyResult.error (keyErrorMsg "name")), [req])
          | Option.some repos =>
            if repos.length = page_size then
              match list_user_repos api access_token page_size (page + 1) fuel with
              | (Option.none, t) => (Option.none, req :: t)
              | (Option.some (PyResult.ok next), t) =>
                (Option.some (PyResult.ok (repos ++ next)), req :: t)
              | (Option.some (PyResult.error m), t) =>
                (Option.some (PyResult.error m), req :: t)
            else (Option.some (PyResult.ok repos), [req])

/-- The request built by `list_org_repos`. -/
def orgReposRequest (access_token org_id : String) (page_size page : Nat) :
    Request :=
  ⟨"https://api.github.com/orgs/" ++ org_id ++ "/repos", 10,
    [("Accept", "vnd.github.v3+json"),
     ("Authorization", "token " ++ access_token)],
    [("page", ParamVal.num page), ("sort", ParamVal.str "full_name"),
     ("per_page", ParamVal.num page_size), ("type", ParamVal.str "all")]⟩

/-- Embedding of `list_org_repos` from `src/github.py`.  Same shape as `list_user_repos`
with the per-organization endpoint and the fixed message
`"Error retrieving Github repositories for org."`. -/
def list_org_repos (api : Nat → ReqResult) (access_token org_id : String)
    (page_size page : Nat) :
    Nat → Option (PyResult (List Item)) × List Request
  | 0 => (Option.none, [])
  | fuel + 1 =>
    let req := orgReposRequest access_token org_id page_size page
    let fixed := "Error retrieving Github repositories for org."
    match api page with
    | ReqResult.timeout _ => (Option.some (PyResult.error fixed), [req])
    | ReqResult.tooManyRedirects _ => (Option.some (PyResult.error fixed), [req])
    | ReqResult.requestError _ => (Option.some (PyResult.error fixed), [req])
    | ReqResult.resp status body =>
      if status ≠ 200 then
        match body with
        | Body.obj fields =>
          match lookupKey fields "message" with
          | Option.some m =>
            (Option.some (PyResult.error ("Error listing repositories: " ++ m)), [req])
          | Option.none =>
            (Option.some (PyResult.error (keyErrorMsg "message")), [req])
        | Body.arr _ =>
          (Option.some (PyResult.error listIndexTypeError), [req])
      else
        match body with
        | Body.obj [] =>
          if (0 : Nat) = page_size then
            match list_org_repos api access_token org_id page_size (page + 1) fuel with
            | (Option.none, t) => (Option.none, req :: t)
            | (Option.some (PyResult.ok next), t) =>
              (Option.some (PyResult.ok next), req :: t)
            | (Option.some (PyResult.error m), t) =>
              (Option.some (PyResult.error m), req :: t)
          else (Option.some (PyResult.ok []), [req])
        | Body.obj (_ :: _) =>
          (Option.some (PyResult.error strIndexTypeError), [req])
        | Body.arr items =>
          match mapItems "name" items with
          | Option.none =>
            (Option.some (PyResult.error (keyErrorMsg "name")), [req])
          | Option.some repos =>
            if repos.length = page_size then
              match list_org_repos api access_token org_id page_size (page + 1) fuel with
              | (Option.none, t) => (Option.none, req :: t)
              | (Option.some (PyResult.ok next), t) =>
                (Option.some (PyResult.ok (repos ++ next)), req :: t)
              | (Option.some (PyResult.error m), t) =>
                (Option.some (PyResult.error m), req :: t)
            else (Option.some (PyResult.ok repos), [req])

end Github

namespace Schemas

/-- A Python value handed to a schema field for deserialization. -/
inductive PyValue where
  | int (n : Int)
  | str (s : String)
  | pynone
deriving DecidableEq, Repr

/-- Modelled from the spec: the repository's `strings` module (imported by
src/schemas.py as `from src import strings` but not present under src/)
supplies "localized error-message templates".  The template texts here
follow the template names; the claims compare field messages against the
template applied to the field name, never against the literal wording. -/
def must_be_positive_integer : String := "%s must be a positive integer."

/-- Modelled from the spec: see `must_be_positive_integer`. -/
def must_be_integer : String := "%s must be an integer."

/-- Modelled from the spec: see `must_be_positive_integer`. -/
def must_be_non_negative_integer : String := "%s must be a non-negative integer."

/-- Modelled from the spec: see `must_be_positive_integer`. -/
def missing_required_field : String := "%s is a required field."

/-- Modelled from the spec: see `must_be_positive_integer`. -/
def field_may_not_be_null : String := "%s may not be null."

/-- Python `template % name` formatting with one string argument: the
`%s` in the template is replaced by the argument. -/
def fmt (template arg : String) : String := template.replace "%s" arg

/-- A validator: `none` means the value passes, `some err` means it fails
with message `err` (marshmallow validators raise `ValidationError(err)`). -/
abbrev Validator := Int → Option String

/-- marshmallow's `validate.Range(min=m, error=err)`: fails on values
below `m` (the minimum is inclusive by default). -/
def rangeMin (m : Int) (err : String) : Validator :=
  fun v => if v < m then Option.some err else Option.none

/-- Run a field's validators in order; the first failure is reported. -/
def runValidators (vs : List Validator) (n : Int) : Option String :=
  match vs with
  | [] => Option.none
  | v :: rest =>
    match v n with
    | Option.some e => Option.some e
    | Option.none => runValidators rest n

/-- The configuration of a `marshmallow.fields.Integer` as built by the
factories in src/schemas.py: the constructor arguments the factories pass
(`required`, `strict`, `allow_none`, the three `error_messages` entries,
and the `validate` list). -/
structure IntegerField where
  required : Bool
  strict : Bool
  allow_none : Bool
  error_invalid : String
  error_required : String
  error_null : String
  validators : List Validator

/-- Deserialization of one input through an Integer field, following
marshmallow's documented behaviour: a missing value errors with the
`required` message when the field is required; an explicit null errors
with the `null` message unless `allow_none`; an `int` passes type
checking; a string is rejected with the `invalid` message under
`strict=True` and otherwise parsed as an integer (rejected with the
`invalid` message when unparseable); a type-correct value then runs the
`validate` list, whose first failure is raised. -/
def deserializeInt (f : IntegerField) (v : Option PyValue) :
    Except String (Option Int) :=
  match v with
  | Option.none =>
    if f.required then Except.error f.error_required else Except.ok Option.none
  | Option.some PyValue.pynone =>
    if f.allow_none then Except.ok Option.none else Except.error f.error_null
  | Option.some (PyValue.int n) =>
    match runValidators f.validators n with
    | Option.some e => Except.error e
    | Option.none => Except.ok (Option.some n)
  | Option.some (PyValue.str s) =>
    if f.strict then Except.error f.error_invalid
    else
      match s.toInt? with
      | Option.none => Except.error f.error_invalid
      | Option.some n =>
        match runValidators f.validators n with
        | Option.some e => Except.error e
        | Option.none => Except.ok (Option.some n)

/-- Embedding of `get_int_field` from `src/schemas.py`: an Integer field with the
caller-supplied extra validators only, and the positive-integer template
as its `invalid` message. -/
def get_int_field (name : String) (strict required : Bool)
    (extra_validators : Option (List Validator)) (allow_none : Bool) :
    IntegerField :=
  ⟨required, strict, allow_none,
    fmt must_be_positive_integer name,
    fmt missing_required_field name,
    fmt field_may_not_be_null name,
    extra_validators.getD []⟩

/-- Embedding of `get_positive_int_field` from `src/schemas.py`: like `get_int_field` but
with a `Range(min=1)` validator prepended to the extra validators. -/
def get_positive_int_field (name : String) (strict required : Bool)
    (extra_validators : Option (List Validator)) (allow_none : Bool) :
    IntegerField :=
  ⟨required, strict, allow_none,
    fmt must_be_positive_integer name,
    fmt missing_required_field name,
    fmt field_may_not_be_null name,
    rangeMin 1 (fmt must_be_positive_integer name) :: extra_validators.getD []⟩

end Schemas

namespace Github

/-- Lookup of a query parameter by key. -/
def lookupParam (ps : List (String × ParamVal)) (k : String) : Option ParamVal :=
  match ps with
  | [] => Option.none
  | (k', v) :: rest => if k' = k then Option.some v else lookupParam rest k

/-- The `page` query parameter of a request. -/
def pageOf (r : Request) : Option ParamVal := lookupParam r.params "page"

/-- Predicate: `sub` occurs as a substring of `s`. -/
def containsSub (s sub : String) : Prop := ∃ a b, s = a ++ sub ++ b

/-- A concrete API: every page answers 404 with a `message` object. -/
def apiMessage : Nat → ReqResult :=
  fun _ => ReqResult.resp 404 (Body.obj [("message", "X")])

/-- A concrete API: every request raises a timeout. -/
def apiTimeout : Nat → ReqResult := fun _ => ReqResult.timeout "boom"

/-- A concrete API: every page answers 200 with an empty JSON array. -/
def apiEmptyPages : Nat → ReqResult := fun _ => ReqResult.resp 200 (Body.arr [])

/-- A concrete API: two 2-item pages of repositories followed by a 1-item
page (the spec's worked example for `list_user_repos` with page size 2). -/
def apiFive : Nat → ReqResult := fun p =>
  if p = 1 then
    ReqResult.resp 200 (Body.arr [[("name", "r1")], [("name", "r2")]])
  else if p = 2 then
    ReqResult.resp 200 (Body.arr [[("name", "r3")], [("name", "r4")]])
  else
    ReqResult.resp 200 (Body.arr [[("name", "r5")]])

/-- A concrete API: page 1 is a full 2-item page whose items carry both a
`login` and a `name` key, page 2 is a 1-item page. -/
def apiBoth : Nat → ReqResult := fun p =>
  if p = 1 then
    ReqResult.resp 200 (Body.arr
      [[("login", "a"), ("name", "b")], [("login", "c"), ("name", "d")]])
  else
    ReqResult.resp 200 (Body.arr [[("login", "e"), ("name", "f")]])

end Github

namespace Github

/-! Unfolding lemmas for `list_organizations`: one per branch of the
source's control flow. -/

lemma list_organizations_full_page (api : Nat → ReqResult) (tok : String)
    (ps p fuel : Nat) (items mapped : List Item)
    (hresp : api p = ReqResult.resp 200 (Body.arr items))
    (hmap : mapItems "login" items = Option.some mapped)
    (hlen : mapped.length = ps) :
    list_organizations api tok ps p (fuel + 1) =
      ((match (list_organizations api tok ps (p + 1) fuel).1 with
        | Option.none => Option.none
        | Option.some (PyResult.ok next) => Option.some (PyResult.ok (mapped ++ next))
        | Option.some (PyResult.error m) => Option.some (PyResult.error m)),
       orgsRequest tok ps p :: (list_organizations api tok ps (p + 1) fuel).2) := by
  rcases hrec : list_organizations api tok ps (p + 1) fuel with ⟨r, t⟩
  simp only [list_organizations, hresp, hmap, hlen, hrec]
  rcases r with _ | r
  · simp
  · rcases r with v | m <;> simp

lemma list_organizations_short_page (api : Nat → ReqResult) (tok : String)
    (ps p fuel : Nat) (items mapped : List Item)
    (hresp : api p = ReqResult.resp 200 (Body.arr items))
    (hmap : mapItems "login" items = Option.some mapped)
    (hlen : mapped.length ≠ ps) :
    list_organizations api tok ps p (fuel + 1) =
      (Option.some (PyResult.ok mapped), [orgsRequest tok ps p]) := by
  simp [list_organizations, hresp, hmap, hlen]

lemma list_organizations_transport (api : Nat → ReqResult) (tok : String)
    (ps p fuel : Nat) (m : String)
    (h : api p = ReqResult.timeout m ∨ api p = ReqResult.tooManyRedirects m ∨
      api p = ReqResult.requestError m) :
    list_organizations api tok ps p (fuel + 1) =
      (Option.some (PyResult.error "Error retrieving Github organizations."),
       [orgsRequest tok ps p]) := by
  rcases h with h | h | h <;> simp [list_organizations, h]

lemma list_organizations_api_message (api : Nat → ReqResult) (tok : String)
    (ps p fuel s : Nat) (fields : Item) (x : String)
    (hs : s ≠ 200) (hresp : api p = ReqResult.resp s (Body.obj fields))
    (hmsg : lookupKey fields "message" = Option.some x) :
    list_organizations api tok ps p (fuel + 1) =
      (Option.some (PyResult.error ("Error listing organizations: " ++ x)),
       [orgsRequest tok ps p]) := by
  simp [list_organizations, hresp, hs, hmsg]

/-! The same unfolding lemmas for `list_user_repos`. -/

lemma list_user_repos_full_page (api : Nat → ReqResult) (tok : String)
    (ps p fuel : Nat) (items mapped : List Item)
    (hresp : api p = ReqResult.resp 200 (Body.arr items))
    (hmap : mapItems "name" items = Option.some mapped)
    (hlen : mapped.length = ps) :
    list_user_repos api tok ps p (fuel + 1) =
      ((match (list_user_repos api tok ps (p + 1) fuel).1 with
        | Option.none => Option.none
        | Option.some (PyResult.ok next) => Option.some (PyResult.ok (mapped ++ next))
        | Option.some (PyResult.error m) => Option.some (PyResult.error m)),
       userReposRequest tok ps p :: (list_user_repos api tok ps (p + 1) fuel).2) := by
  rcases hrec : list_user_repos api tok ps (p + 1) fuel with ⟨r, t⟩
  simp only [list_user_repos, hresp, hmap, hlen, hrec]
  rcases r with _ | r
  · simp
  · rcases r with v | m <;> simp

lemma list_user_repos_short_page (api : Nat → ReqResult) (tok : String)
    (ps p fuel : Nat) (items mapped : List Item)
    (hresp : api p = ReqResult.resp 200 (Body.arr items))
    (hmap : mapItems "name" items = Option.some mapped)
    (hlen : mapped.length ≠ ps) :
    list_user_repos api tok ps p (fuel + 1) =
      (Option.some (PyResult.ok mapped), [userReposRequest tok ps p]) := by
  simp [list_user_repos, hresp, hmap, hlen]

lemma list_user_repos_transport (api : Nat → ReqResult) (tok : String)
    (ps p fuel : Nat) (m : String)
    (h : api p = ReqResult.timeout m ∨ api p = ReqResult.tooManyRedirects m ∨
      api p = ReqResult.requestError m) :
    list_user_repos api tok ps p (fuel + 1) =
      (Option.some (PyResult.error "Error retrieving Github repositories for user."),
       [userReposRequest tok ps p]) := by
  rcases h with h | h | h <;> simp [list_user_repos, h]

lemma list_user_repos_api_message (api : Nat → ReqResult) (tok : String)
    (ps p fuel s : Nat) (fields : Item) (x : String)
    (hs : s ≠ 200) (hresp : api p = ReqResult.resp s (Body.obj fields))
    (hmsg : lookupKey fields "message" = Option.some x) :
    list_user_repos api tok ps p (fuel + 1) =
      (Option.some (PyResult.error ("Error listing repositories: " ++ x)),
       [userReposRequest tok ps p]) := by
  simp [list_user_repos, hresp, hs, hmsg]

/-! The same unfolding lemmas for `list_org_repos`. -/

lemma list_org_repos_full_page (api : Nat → ReqResult) (tok oid : String)
    (ps p fuel : Nat) (items mapped : List Item)
    (hresp : api p = ReqResult.resp 200 (Body.arr items))
    (hmap : mapItems "name" items = Option.some mapped)
    (hlen : mapped.length = ps) :
    list_org_repos api tok oid ps p (fuel + 1) =
      ((match (list_org_repos api tok oid ps (p + 1) fuel).1 with
        | Option.none => Option.none
        | Option.some (PyResult.ok next) => Option.some (PyResult.ok (mapped ++ next))
        | Option.some (PyResult.error m) => Option.some (PyResult.error m)),
       orgReposRequest tok oid ps p :: (list_org_repos api tok oid ps (p + 1) fuel).2) := by
  rcases hrec : list_org_repos api tok oid ps (p + 1) fuel with ⟨r, t⟩
  simp only [list_org_repos, hresp, hmap, hlen, hrec]
  rcases r with _ | r
  · simp
  · rcases r with v | m <;> simp

lemma list_org_repos_short_page (api : Nat → ReqResult) (tok oid : String)
    (ps p fuel : Nat) (items mapped : List Item)
    (hresp : api p = ReqResult.resp 200 (Body.arr items))
    (hmap : mapItems "name" items = Option.some mapped)
    (hlen : mapped.length ≠ ps) :
    list_org_repos api tok oid ps p (fuel + 1) =
      (Option.some (PyResult.ok mapped), [orgReposRequest tok oid ps p]) := by
  simp [list_org_repos, hresp, hmap, hlen]

lemma list_org_repos_transport (api : Nat → ReqResult) (tok oid : String)
    (ps p fuel : Nat) (m : String)
    (h : api p = ReqResult.timeout m ∨ api p = ReqResult.tooManyRedirects m ∨
      api p = ReqResult.requestError m) :
    list_org_repos api tok oid ps p (fuel + 1) =
      (Option.some (PyResult.error "Error retrieving Github repositories for org."),
       [orgReposRequest tok oid ps p]) := by
  rcases h with h | h | h <;> simp [list_org_repos, h]

lemma list_org_repos_api_message (api : Nat → ReqResult) (tok oid : String)
    (ps p fuel s : Nat) (fields : Item) (x : String)
    (hs : s ≠ 200) (hresp : api p = ReqResult.resp s (Body.obj fields))
    (hmsg : lookupKey fields "message" = Option.some x) :
    list_org_repos api tok oid ps p (fuel + 1) =
      (Option.some (PyResult.error ("Error listing repositories: " ++ x)),
       [orgReposRequest tok oid ps p]) := by
  simp [list_org_repos, hresp, hs, hmsg]

end Github

namespace Github

lemma list_organizations_empty_obj (api : Nat → ReqResult) (tok : String)
    (ps p fuel : Nat)
    (hresp : api p = ReqResult.resp 200 (Body.obj []))
    (hps : (0 : Nat) = ps) :
    list_organizations api tok ps p (fuel + 1) =
      ((list_organizations api tok ps (p + 1) fuel).1,
       orgsRequest tok ps p :: (list_organizations api tok ps (p + 1) fuel).2) := by
  subst hps
  rcases hrec : list_organizations api tok 0 (p + 1) fuel with ⟨r, t⟩
  simp only [list_organizations, hresp, hrec]
  rcases r with _ | r
  · simp
  · rcases r with v | m <;> simp

lemma list_user_repos_empty_obj (api : Nat → ReqResult) (tok : String)
    (ps p fuel : Nat)
    (hresp : api p = ReqResult.resp 200 (Body.obj []))
    (hps : (0 : Nat) = ps) :
    list_user_repos api tok ps p (fuel + 1) =
      ((list_user_repos api tok ps (p + 1) fuel).1,
       userReposRequest tok ps p :: (list_user_repos api tok ps (p + 1) fuel).2) := by
  subst hps
  rcases hrec : list_user_repos api tok 0 (p + 1) fuel with ⟨r, t⟩
  simp only [list_user_repos, hresp, hrec]
  rcases r with _ | r
  · simp
  · rcases r with v | m <;> simp

lemma list_org_repos_empty_obj (api : Nat → ReqResult) (tok oid : String)
    (ps p fuel : Nat)
    (hresp : api p = ReqResult.resp 200 (Body.obj []))
    (hps : (0 : Nat) = ps) :
    list_org_repos api tok oid ps p (fuel + 1) =
      ((list_org_repos api tok oid ps (p + 1) fuel).1,
       orgReposRequest tok oid ps p :: (list_org_repos api tok oid ps (p + 1) fuel).2) := by
  subst hps
  rcases hrec : list_org_repos api tok oid 0 (p + 1) fuel with ⟨r, t⟩
  simp only [list_org_repos, hresp, hrec]
  rcases r with _ | r
  · simp
  · rcases r with v | m <;> simp

lemma list_organizations_empty_diverges (api : Nat → ReqResult) (tok : String)
    (h : ∀ q, api q = ReqResult.resp 200 (Body.arr [])) :
    ∀ fuel p, (list_organizations api tok 0 p fuel).1 = Option.none := by
  intro fuel
  induction fuel with
  | zero => intro p; rfl
  | succ fuel ih =>
    intro p
    rw [list_organizations_full_page api tok 0 p fuel [] [] (h p) rfl rfl]
    simp [ih (p + 1)]

lemma list_user_repos_empty_diverges (api : Nat → ReqResult) (tok : String)
    (h : ∀ q, api q = ReqResult.resp 200 (Body.arr [])) :
    ∀ fuel p, (list_user_repos api tok 0 p fuel).1 = Option.none := by
  intro fuel
  induction fuel with
  | zero => intro p; rfl
  | succ fuel ih =>
    intro p
    rw [list_user_repos_full_page api tok 0 p fuel [] [] (h p) rfl rfl]
    simp [ih (p + 1)]

lemma list_org_repos_empty_diverges (api : Nat → ReqResult) (tok oid : String)
    (h : ∀ q, api q = ReqResult.resp 200 (Body.arr [])) :
    ∀ fuel p, (list_org_repos api tok oid 0 p fuel).1 = Option.none := by
  intro fuel
  induction fuel with
  | zero => intro p; rfl
  | succ fuel ih =>
    intro p
    rw [list_org_repos_full_page api tok oid 0 p fuel [] [] (h p) rfl rfl]
    simp [ih (p + 1)]

lemma mapItems_forall2 (key : String) :
    ∀ (items mapped : List Item), mapItems key items = Option.some mapped →
      List.Forall₂ (fun it e => ∃ v, lookupKey it key = Option.some v ∧
        e = [("id", v), ("name", v)]) items mapped := by
  intro items
  induction items with
  | nil =>
    intro mapped h
    simp only [mapItems, Option.some.injEq] at h
    subst h
    exact List.Forall₂.nil
  | cons it rest ih =>
    intro mapped h
    simp only [mapItems] at h
    rcases hk : lookupKey it key with _ | v <;> rw [hk] at h
    · exact absurd h (by simp)
    · rcases hm : mapItems key rest with _ | ms <;> rw [hm] at h
      · exact absurd h (by simp)
      · simp only [Option.some.injEq] at h
        subst h
        exact List.Forall₂.cons ⟨v, hk, rfl⟩ (ih ms hm)

lemma mapItems_shape (key : String) :
    ∀ (items mapped : List Item), mapItems key items = Option.some mapped →
      ∀ e ∈ mapped, ∃ v, e = [("id", v), ("name", v)] := by
  intro items
  induction items with
  | nil =>
    intro mapped h e he
    simp only [mapItems, Option.some.injEq] at h
    subst h
    simp at he
  | cons it rest ih =>
    intro mapped h e he
    simp only [mapItems] at h
    rcases hk : lookupKey it key with _ | v <;> rw [hk] at h
    · exact absurd h (by simp)
    · rcases hm : mapItems key rest with _ | ms <;> rw [hm] at h
      · exact absurd h (by simp)
      · simp only [Option.some.injEq] at h
        subst h
        cases he with
        | head => exact ⟨v, rfl⟩
        | tail _ he => exact ih ms hm e he

lemma list_organizations_ok_shape (api : Nat → ReqResult) (tok : String) (ps : Nat) :
    ∀ fuel p l, (list_organizations api tok ps p fuel).1 = Option.some (PyResult.ok l) →
      ∀ e ∈ l, ∃ v, e = [("id", v), ("name", v)] := by
  intro fuel
  induction fuel with
  | zero =>
    intro p l h
    simp [list_organizations] at h
  | succ fuel ih =>
    intro p l h
    rcases hapi : api p with ⟨s, body⟩ | m | m | m
    · by_cases hs : s = 200
      · subst hs
        rcases body with items | fields
        · rcases hmap : mapItems "login" items with _ | mapped
          · simp [list_organizations, hapi, hmap] at h
          · by_cases hlen : mapped.length = ps
            · rw [list_organizations_full_page api tok ps p fuel items mapped hapi hmap hlen] at h
              rcases hrec : (list_organizations api tok ps (p + 1) fuel).1 with _ | r
              · rw [hrec] at h
                exact absurd h (by simp)
              · rcases r with next | m2
                · rw [hrec] at h
                  simp only [Option.some.injEq, PyResult.ok.injEq] at h
                  subst h
                  intro e he
                  rcases List.mem_append.mp he with he | he
                  · exact mapItems_shape "login" items mapped hmap e he
                  · exact ih (p + 1) next hrec e he
                · rw [hrec] at h
                  exact absurd h (by simp)
            · rw [list_organizations_short_page api tok ps p fuel items mapped hapi hmap hlen] at h
              simp only [Option.some.injEq, PyResult.ok.injEq] at h
              subst h
              exact mapItems_shape "login" items mapped hmap
        · rcases fields with _ | ⟨f, fs⟩
          · by_cases hps : (0 : Nat) = ps
            · rw [list_organizations_empty_obj api tok ps p fuel hapi hps] at h
              exact ih (p + 1) l h
            · simp [list_organizations, hapi, hps] at h
              subst h
              intro e he
              simp at he
          · simp [list_organizations, hapi] at h
      · rcases body with items | fields
        · simp [list_organizations, hapi, hs] at h
        · rcases hmsg : lookupKey fields "message" with _ | x <;>
            simp [list_organizations, hapi, hs, hmsg] at h
    · simp [list_organizations, hapi] at h
    · simp [list_organizations, hapi] at h
    · simp [list_organizations, hapi] at h

lemma list_user_repos_ok_shape (api : Nat → ReqResult) (tok : String) (ps : Nat) :
    ∀ fuel p l, (list_user_repos api tok ps p fuel).1 = Option.some (PyResult.ok l) →
      ∀ e ∈ l, ∃ v, e = [("id", v), ("name", v)] := by
  intro fuel
  induction fuel with
  | zero =>
    intro p l h
    simp [list_user_repos] at h
  | succ fuel ih =>
    intro p l h
    rcases hapi : api p with ⟨s, body⟩ | m | m | m
    · by_cases hs : s = 200
      · subst hs
        rcases body with items | fields
        · rcases hmap : mapItems "name" items with _ | mapped
          · simp [list_user_repos, hapi, hmap] at h
          · by_cases hlen : mapped.length = ps
            · rw [list_user_repos_full_page api tok ps p fuel items mapped hapi hmap hlen] at h
              rcases hrec : (list_user_repos api tok ps (p + 1) fuel).1 with _ | r
              · rw [hrec] at h
                exact absurd h (by simp)
              · rcases r with next | m2
                · rw [hrec] at h
                  simp only [Option.some.injEq, PyResult.ok.injEq] at h
                  subst h
                  intro e he
                  rcases List.mem_append.mp he with he | he
                  · exact mapItems_shape "name" items mapped hmap e he
                  · exact ih (p + 1) next hrec e he
                · rw [hrec] at h
                  exact absurd h (by simp)
            · rw [list_user_repos_short_page api tok ps p fuel items mapped hapi hmap hlen] at h
              simp only [Option.some.injEq, PyResult.ok.injEq] at h
              subst h
              exact mapItems_shape "name" items mapped hmap
        · rcases fields with _ | ⟨f, fs⟩
          · by_cases hps : (0 : Nat) = ps
            · rw [list_user_repos_empty_obj api tok ps p fuel hapi hps] at h
              exact ih (p + 1) l h
            · simp [list_user_repos, hapi, hps] at h
              subst h
              intro e he
              simp at he
          · simp [list_user_repos, hapi] at h
      · rcases body with items | fields
        · simp [list_user_repos, hapi, hs] at h
        · rcases hmsg : lookupKey fields "message" with _ | x <;>
            simp [list_user_repos, hapi, hs, hmsg] at h
    · simp [list_user_repos, hapi] at h
    · simp [list_user_repos, hapi] at h
    · simp [list_user_repos, hapi] at h

lemma list_org_repos_ok_shape (api : Nat → ReqResult) (tok oid : String) (ps : Nat) :
    ∀ fuel p l, (list_org_repos api tok oid ps p fuel).1 = Option.some (PyResult.ok l) →
      ∀ e ∈ l, ∃ v, e = [("id", v), ("name", v)] := by
  intro fuel
  induction fuel with
  | zero =>
    intro p l h
    simp [list_org_repos] at h
  | succ fuel ih =>
    intro p l h
    rcases hapi : api p with ⟨s, body⟩ | m | m | m
    · by_cases hs : s = 200
      · subst hs
        rcases body with items | fields
        · rcases hmap : mapItems "name" items with _ | mapped
          · simp [list_org_repos, hapi, hmap] at h
          · by_cases hlen : mapped.length = ps
            · rw [list_org_repos_full_page api tok oid ps p fuel items mapped hapi hmap hlen] at h
              rcases hrec : (list_org_repos api tok oid ps (p + 1) fuel).1 with _ | r
              · rw [hrec] at h
                exact absurd h (by simp)
              · rcases r with next | m2
                · rw [hrec] at h
                  simp only [Option.some.injEq, PyResult.ok.injEq] at h
                  subst h
                  intro e he
                  rcases List.mem_append.mp he with he | he
                  · exact mapItems_shape "name" items mapped hmap e he
                  · exact ih (p + 1) next hrec e he
                · rw [hrec] at h
                  exact absurd h (by simp)
            · rw [list_org_repos_short_page api tok oid ps p fuel items mapped hapi hmap hlen] at h
              simp only [Option.some.injEq, PyResult.ok.injEq] at h
              subst h
              exact mapItems_shape "name" items mapped hmap
        · rcases fields with _ | ⟨f, fs⟩
          · by_cases hps : (0 : Nat) = ps
            · rw [list_org_repos_empty_obj api tok oid ps p fuel hapi hps] at h
              exact ih (p + 1) l h
            · simp [list_org_repos, hapi, hps] at h
              subst h
              intro e he
              simp at he
          · simp [list_org_repos, hapi] at h
      · rcases body with items | fields
        · simp [list_org_repos, hapi, hs] at h
        · rcases hmsg : lookupKey fields "message" with _ | x <;>
            simp [list_org_repos, hapi, hs, hmsg] at h
    · simp [list_org_repos, hapi] at h
    · simp [list_org_repos, hapi] at h
    · simp [list_org_repos, hapi] at h

lemma list_organizations_trace (api : Nat → ReqResult) (tok : String) (ps : Nat) :
    ∀ fuel p, ∃ k, (list_organizations api tok ps p fuel).2 =
      (List.range k).map (fun i => orgsRequest tok ps (p + i)) := by
  intro fuel
  induction fuel with
  | zero =>
    intro p
    exact ⟨0, by simp [list_organizations]⟩
  | succ fuel ih =>
    intro p
    obtain ⟨k, hk⟩ := ih (p + 1)
    have hone : [orgsRequest tok ps p] =
        (List.range 1).map (fun i => orgsRequest tok ps (p + i)) := by
      have h0 : List.range 1 = [0] := rfl
      rw [h0, List.map_cons, List.map_nil, Nat.add_zero]
    have hcons : orgsRequest tok ps p :: (list_organizations api tok ps (p + 1) fuel).2 =
        (List.range (k + 1)).map (fun i => orgsRequest tok ps (p + i)) := by
      rw [hk, List.range_succ_eq_map, List.map_cons, List.map_map]
      have hhead : orgsRequest tok ps p = orgsRequest tok ps (p + 0) := by
        rw [Nat.add_zero]
      have htail : (fun i => orgsRequest tok ps (p + 1 + i)) =
          ((fun i => orgsRequest tok ps (p + i)) ∘ Nat.succ) := by
        funext i
        show orgsRequest tok ps (p + 1 + i) = orgsRequest tok ps (p + Nat.succ i)
        have hi : p + 1 + i = p + Nat.succ i := by omega
        rw [hi]
      rw [← hhead, ← htail]
    rcases hapi : api p with ⟨s, body⟩ | m | m | m
    · by_cases hs : s = 200
      · subst hs
        rcases body with items | fields
        · rcases hmap : mapItems "login" items with _ | mapped
          · exact ⟨1, by simp [list_organizations, hapi, hmap]; exact hone⟩
          · by_cases hlen : mapped.length = ps
            · refine ⟨k + 1, ?_⟩
              rw [list_organizations_full_page api tok ps p fuel items mapped hapi hmap hlen]
              exact hcons
            · exact ⟨1, by
                rw [list_organizations_short_page api tok ps p fuel items mapped hapi hmap hlen]
                exact hone⟩
        · rcases fields with _ | ⟨f, fs⟩
          · by_cases hps : (0 : Nat) = ps
            · refine ⟨k + 1, ?_⟩
              rw [list_organizations_empty_obj api tok ps p fuel hapi hps]
              exact hcons
            · exact ⟨1, by simp [list_organizations, hapi, hps]; exact hone⟩
          · exact ⟨1, by simp [list_organizations, hapi]; exact hone⟩
      · rcases body with items | fields
        · exact ⟨1, by simp [list_organizations, hapi, hs]; exact hone⟩
        · rcases hmsg : lookupKey fields "message" with _ | x
          · exact ⟨1, by simp [list_organizations, hapi, hs, hmsg]; exact hone⟩
          · exact ⟨1, by simp [list_organizations, hapi, hs, hmsg]; exact hone⟩
    · exact ⟨1, by simp [list_organizations, hapi]; exact hone⟩
    · exact ⟨1, by simp [list_organizations, hapi]; exact hone⟩
    · exact ⟨1, by simp [list_organizations, hapi]; exact hone⟩

lemma list_user_repos_trace (api : Nat → ReqResult) (tok : String) (ps : Nat) :
    ∀ fuel p, ∃ k, (list_user_repos api tok ps p fuel).2 =
      (List.range k).map (fun i => userReposRequest tok ps (p + i)) := by
  intro fuel
  induction fuel with
  | zero =>
    intro p
    exact ⟨0, by simp [list_user_repos]⟩
  | succ fuel ih =>
    intro p
    obtain ⟨k, hk⟩ := ih (p + 1)
    have hone : [userReposRequest tok ps p] =
        (List.range 1).map (fun i => userReposRequest tok ps (p + i)) := by
      have h0 : List.range 1 = [0] := rfl
      rw [h0, List.map_cons, List.map_nil, Nat.add_zero]
    have hcons : userReposRequest tok ps p :: (list_user_repos api tok ps (p + 1) fuel).2 =
        (List.range (k + 1)).map (fun i => userReposRequest tok ps (p + i)) := by
      rw [hk, List.range_succ_eq_map, List.map_cons, List.map_map]
      have hhead : userReposRequest tok ps p = userReposRequest tok ps (p + 0) := by
        rw [Nat.add_zero]
      have htail : (fun i => userReposRequest tok ps (p + 1 + i)) =
          ((fun i => userReposRequest tok ps (p + i)) ∘ Nat.succ) := by
        funext i
        show userReposRequest tok ps (p + 1 + i) = userReposRequest tok ps (p + Nat.succ i)
        have hi : p + 1 + i = p + Nat.succ i := by omega
        rw [hi]
      rw [← hhead, ← htail]
    rcases hapi : api p with ⟨s, body⟩ | m | m | m
    · by_cases hs : s = 200
      · subst hs
        rcases body with items | fields
        · rcases hmap : mapItems "name" items with _ | mapped
          · exact ⟨1, by simp [list_user_repos, hapi, hmap]; exact hone⟩
          · by_cases hlen : mapped.length = ps
            · refine ⟨k + 1, ?_⟩
              rw [list_user_repos_full_page api tok ps p fuel items mapped hapi hmap hlen]
              exact hcons
            · exact ⟨1, by
                rw [list_user_repos_short_page api tok ps p fuel items mapped hapi hmap hlen]
                exact hone⟩
        · rcases fields with _ | ⟨f, fs⟩
          · by_cases hps : (0 : Nat) = ps
            · refine ⟨k + 1, ?_⟩
              rw [list_user_repos_empty_obj api tok ps p fuel hapi hps]
              exact hcons
            · exact ⟨1, by simp [list_user_repos, hapi, hps]; exact hone⟩
          · exact ⟨1, by simp [list_user_repos, hapi]; exact hone⟩
      · rcases body with items | fields
        · exact ⟨1, by simp [list_user_repos, hapi, hs]; exact hone⟩
        · rcases hmsg : lookupKey fields "message" with _ | x
          · exact ⟨1, by simp [list_user_repos, hapi, hs, hmsg]; exact hone⟩
          · exact ⟨1, by simp [list_user_repos, hapi, hs, hmsg]; exact hone⟩
    · exact ⟨1, by simp [list_user_repos, hapi]; exact hone⟩
    · exact ⟨1, by simp [list_user_repos, hapi]; exact hone⟩
    · exact ⟨1, by simp [list_user_repos, hapi]; exact hone⟩

lemma list_org_repos_trace (api : Nat → ReqResult) (tok oid : String) (ps : Nat) :
    ∀ fuel p, ∃ k, (list_org_repos api tok oid ps p fuel).2 =
      (List.range k).map (fun i => orgReposRequest tok oid ps (p + i)) := by
  intro fuel
  induction fuel with
  | zero =>
    intro p
    exact ⟨0, by simp [list_org_repos]⟩
  | succ fuel ih =>
    intro p
    obtain ⟨k, hk⟩ := ih (p + 1)
    have hone : [orgReposRequest tok oid ps p] =
        (List.range 1).map (fun i => orgReposRequest tok oid ps (p + i)) := by
      have h0 : List.range 1 = [0] := rfl
      rw [h0, List.map_cons, List.map_nil, Nat.add_zero]
    have hcons : orgReposRequest tok oid ps p :: (list_org_repos api tok oid ps (p + 1) fuel).2 =
        (List.range (k + 1)).map (fun i => orgReposRequest tok oid ps (p + i)) := by
      rw [hk, List.range_succ_eq_map, List.map_cons, List.map_map]
      have hhead : orgReposRequest tok oid ps p = orgReposRequest tok oid ps (p + 0) := by
        rw [Nat.add_zero]
      have htail : (fun i => orgReposRequest tok oid ps (p + 1 + i)) =
          ((fun i => orgReposRequest tok oid ps (p + i)) ∘ Nat.succ) := by
        funext i
        show orgReposRequest tok oid ps (p + 1 + i) = orgReposRequest tok oid ps (p + Nat.succ i)
        have hi : p + 1 + i = p + Nat.succ i := by omega
        rw [hi]
      rw [← hhead, ← htail]
    rcases hapi : api p with ⟨s, body⟩ | m | m | m
    · by_cases hs : s = 200
      · subst hs
        rcases body with items | fields
        · rcases hmap : mapItems "name" items with _ | mapped
          · exact ⟨1, by simp [list_org_repos, hapi, hmap]; exact hone⟩
          · by_cases hlen : mapped.length = ps
            · refine ⟨k + 1, ?_⟩
              rw [list_org_repos_full_page api tok oid ps p fuel items mapped hapi hmap hlen]
              exact hcons
            · exact ⟨1, by
                rw [list_org_repos_short_page api tok oid ps p fuel items mapped hapi hmap hlen]
                exact hone⟩
        · rcases fields with _ | ⟨f, fs⟩
          · by_cases hps : (0 : Nat) = ps
            · refine ⟨k + 1, ?_⟩
              rw [list_org_repos_empty_obj api tok oid ps p fuel hapi hps]
              exact hcons
            · exact ⟨1, by simp [list_org_repos, hapi, hps]; exact hone⟩
          · exact ⟨1, by simp [list_org_repos, hapi]; exact hone⟩
      · rcases body with items | fields
        · exact ⟨1, by simp [list_org_repos, hapi, hs]; exact hone⟩
        · rcases hmsg : lookupKey fields "message" with _ | x
          · exact ⟨1, by simp [list_org_repos, hapi, hs, hmsg]; exact hone⟩
          · exact ⟨1, by simp [list_org_repos, hapi, hs, hmsg]; exact hone⟩
    · exact ⟨1, by simp [list_org_repos, hapi]; exact hone⟩
    · exact ⟨1, by simp [list_org_repos, hapi]; exact hone⟩
    · exact ⟨1, by simp [list_org_repos, hapi]; exact hone⟩

lemma range_map_pageOf_nodup (p k : Nat) (mk : Nat → Request)
    (hmk : ∀ q, pageOf (mk q) = Option.some (ParamVal.num q)) :
    (((List.range k).map (fun i => mk (p + i))).map pageOf).Nodup := by
  rw [List.map_map]
  have he : (pageOf ∘ fun i => mk (p + i)) =
      fun i => Option.some (ParamVal.num (p + i)) := by
    funext i
    exact hmk (p + i)
  rw [he]
  have hinj : Function.Injective (fun i => Option.some (ParamVal.num (p + i))) := by
    intro a b hab
    simp only [Option.some.injEq, ParamVal.num.injEq] at hab
    omega
  exact (List.nodup_range k).map hinj

/-- C1 counterexample: the claim says every failure raises the function's
fixed message, but a non-200 response with an API `message` raises
`Exception(e)` carrying the original text "Error listing organizations: X",
not the fixed "Error retrieving Github organizations.". -/
theorem error_collapse_counterexample :
    (list_organizations apiMessage "tok" 50 1 1).1 =
      Option.some (PyResult.error "Error listing organizations: X") ∧
    "Error listing organizations: X" ≠ "Error retrieving Github organizations." :=
  ⟨rfl, by decide⟩

/-- C1 (amended): for each of the three listing functions, the three
transport-level failures (timeout, redirect loop, generic request
exception) are re-raised as an untyped error with that function's fixed
message, while any other exception — here the non-200 API-message case —
is re-raised as an untyped error carrying the original exception's own
text, so failure causes are indistinguishable by type but not by text. -/
theorem error_collapse_amended (api : Nat → ReqResult) (tok oid : String)
    (ps p fuel : Nat) (m : String) :
    ((api p = ReqResult.timeout m ∨ api p = ReqResult.tooManyRedirects m ∨
        api p = ReqResult.requestError m) →
      (list_organizations api tok ps p (fuel + 1)).1 =
        Option.some (PyResult.error "Error retrieving Github organizations.") ∧
      (list_user_repos api tok ps p (fuel + 1)).1 =
        Option.some (PyResult.error "Error retrieving Github repositories for user.") ∧
      (list_org_repos api tok oid ps p (fuel + 1)).1 =
        Option.some (PyResult.error "Error retrieving Github repositories for org.")) ∧
    (∀ s fields x, s ≠ 200 → api p = ReqResult.resp s (Body.obj fields) →
      lookupKey fields "message" = Option.some x →
      (list_organizations api tok ps p (fuel + 1)).1 =
        Option.some (PyResult.error ("Error listing organizations: " ++ x)) ∧
      (list_user_repos api tok ps p (fuel + 1)).1 =
        Option.some (PyResult.error ("Error listing repositories: " ++ x)) ∧
      (list_org_repos api tok oid ps p (fuel + 1)).1 =
        Option.some (PyResult.error ("Error listing repositories: " ++ x))) := by
  constructor
  · intro h
    refine ⟨?_, ?_, ?_⟩
    · rw [list_organizations_transport api tok ps p fuel m h]
    · rw [list_user_repos_transport api tok ps p fuel m h]
    · rw [list_org_repos_transport api tok oid ps p fuel m h]
  · intro s fields x hs hresp hmsg
    refine ⟨?_, ?_, ?_⟩
    · rw [list_organizations_api_message api tok ps p fuel s fields x hs hresp hmsg]
    · rw [list_user_repos_api_message api tok ps p fuel s fields x hs hresp hmsg]
    · rw [list_org_repos_api_message api tok oid ps p fuel s fields x hs hresp hmsg]

/-- Witness for C1 (amended) at a concrete always-timeout API. -/
theorem error_collapse_amended_witness :
    (list_user_repos apiTimeout "tok" 50 1 1).1 =
      Option.some (PyResult.error "Error retrieving Github repositories for user.") :=
  ((error_collapse_amended apiTimeout "tok" "oid" 50 1 0 "boom").1 (Or.inl rfl)).2.1

/-- C2: on a 200 page with exactly `page_size` items, each function issues
the current page's request followed by the requests of one recursive call
at page+1, and its result is the current page's mapped items concatenated
(in request order) with the recursive result. -/
theorem full_page_recursion (api : Nat → ReqResult) (tok oid : String)
    (ps p fuel : Nat) (items orgsMapped reposMapped : List Item)
    (hresp : api p = ReqResult.resp 200 (Body.arr items))
    (hmapO : mapItems "login" items = Option.some orgsMapped)
    (hmapR : mapItems "name" items = Option.some reposMapped)
    (hlenO : orgsMapped.length = ps)
    (hlenR : reposMapped.length = ps) :
    ((list_organizations api tok ps p (fuel + 1)).2 =
        orgsRequest tok ps p :: (list_organizations api tok ps (p + 1) fuel).2 ∧
      ∀ next, (list_organizations api tok ps (p + 1) fuel).1 =
          Option.some (PyResult.ok next) →
        (list_organizations api tok ps p (fuel + 1)).1 =
          Option.some (PyResult.ok (orgsMapped ++ next))) ∧
    ((list_user_repos api tok ps p (fuel + 1)).2 =
        userReposRequest tok ps p :: (list_user_repos api tok ps (p + 1) fuel).2 ∧
      ∀ next, (list_user_repos api tok ps (p + 1) fuel).1 =
          Option.some (PyResult.ok next) →
        (list_user_repos api tok ps p (fuel + 1)).1 =
          Option.some (PyResult.ok (reposMapped ++ next))) ∧
    ((list_org_repos api tok oid ps p (fuel + 1)).2 =
        orgReposRequest tok oid ps p :: (list_org_repos api tok oid ps (p + 1) fuel).2 ∧
      ∀ next, (list_org_repos api tok oid ps (p + 1) fuel).1 =
          Option.some (PyResult.ok next) →
        (list_org_repos api tok oid ps p (fuel + 1)).1 =
          Option.some (PyResult.ok (reposMapped ++ next))) := by
  refine ⟨⟨?_, ?_⟩, ⟨?_, ?_⟩, ⟨?_, ?_⟩⟩
  · rw [list_organizations_full_page api tok ps p fuel items orgsMapped hresp hmapO hlenO]
  · intro next hnext
    rw [list_organizations_full_page api tok ps p fuel items orgsMapped hresp hmapO hlenO]
    simp [hnext]
  · rw [list_user_repos_full_page api tok ps p fuel items reposMapped hresp hmapR hlenR]
  · intro next hnext
    rw [list_user_repos_full_page api tok ps p fuel items reposMapped hresp hmapR hlenR]
    simp [hnext]
  · rw [list_org_repos_full_page api tok oid ps p fuel items reposMapped hresp hmapR hlenR]
  · intro next hnext
    rw [list_org_repos_full_page api tok oid ps p fuel items reposMapped hresp hmapR hlenR]
    simp [hnext]

/-- Witness for C2 at a concrete API whose page 1 is a full 2-item page. -/
theorem full_page_recursion_witness :
    (list_user_repos apiBoth "tok" 2 1 3).2 =
      userReposRequest "tok" 2 1 :: (list_user_repos apiBoth "tok" 2 2 2).2 :=
  (full_page_recursion apiBoth "tok" "oid" 2 1 2
    [[("login", "a"), ("name", "b")], [("login", "c"), ("name", "d")]]
    [[("id", "a"), ("name", "a")], [("id", "c"), ("name", "c")]]
    [[("id", "b"), ("name", "b")], [("id", "d"), ("name", "d")]]
    rfl rfl rfl rfl rfl).2.1.1

/-- C3: on a 200 page with strictly fewer (more generally: a number other
than `page_size`) items, each function makes no further request — its
trace is the single current-page request — and returns that page's mapped
items. -/
theorem short_page_terminates (api : Nat → ReqResult) (tok oid : String)
    (ps p fuel : Nat) (items orgsMapped reposMapped : List Item)
    (hresp : api p = ReqResult.resp 200 (Body.arr items))
    (hmapO : mapItems "login" items = Option.some orgsMapped)
    (hmapR : mapItems "name" items = Option.some reposMapped)
    (hlenO : orgsMapped.length ≠ ps)
    (hlenR : reposMapped.length ≠ ps) :
    list_organizations api tok ps p (fuel + 1) =
      (Option.some (PyResult.ok orgsMapped), [orgsRequest tok ps p]) ∧
    list_user_repos api tok ps p (fuel + 1) =
      (Option.some (PyResult.ok reposMapped), [userReposRequest tok ps p]) ∧
    list_org_repos api tok oid ps p (fuel + 1) =
      (Option.some (PyResult.ok reposMapped), [orgReposRequest tok oid ps p]) :=
  ⟨list_organizations_short_page api tok ps p fuel items orgsMapped hresp hmapO hlenO,
   list_user_repos_short_page api tok ps p fuel items reposMapped hresp hmapR hlenR,
   list_org_repos_short_page api tok oid ps p fuel items reposMapped hresp hmapR hlenR⟩

/-- Witness for C3 at a concrete API whose page 2 holds a single item,
with page size 50. -/
theorem short_page_terminates_witness :
    list_user_repos apiBoth "tok" 50 2 1 =
      (Option.some (PyResult.ok [[("id", "f"), ("name", "f")]]),
       [userReposRequest "tok" 50 2]) :=
  (short_page_terminates apiBoth "tok" "oid" 50 2 0
    [[("login", "e"), ("name", "f")]]
    [[("id", "e"), ("name", "e")]]
    [[("id", "f"), ("name", "f")]]
    rfl rfl rfl (by decide) (by decide)).2.1

/-- C4: a non-200 response whose JSON object body carries a `message` key
with value `x` makes each function raise an error whose text contains
`x`. -/
theorem non200_message_in_error (api : Nat → ReqResult) (tok oid : String)
    (ps p fuel s : Nat) (fields : Item) (x : String)
    (hs : s ≠ 200) (hresp : api p = ReqResult.resp s (Body.obj fields))
    (hmsg : lookupKey fields "message" = Option.some x) :
    (∃ msg, (list_organizations api tok ps p (fuel + 1)).1 =
        Option.some (PyResult.error msg) ∧ containsSub msg x) ∧
    (∃ msg, (list_user_repos api tok ps p (fuel + 1)).1 =
        Option.some (PyResult.error msg) ∧ containsSub msg x) ∧
    (∃ msg, (list_org_repos api tok oid ps p (fuel + 1)).1 =
        Option.some (PyResult.error msg) ∧ containsSub msg x) := by
  refine ⟨⟨"Error listing organizations: " ++ x, ?_, ?_⟩,
    ⟨"Error listing repositories: " ++ x, ?_, ?_⟩,
    ⟨"Error listing repositories: " ++ x, ?_, ?_⟩⟩
  · rw [list_organizations_api_message api tok ps p fuel s fields x hs hresp hmsg]
  · exact ⟨"Error listing organizations: ", "", by simp⟩
  · rw [list_user_repos_api_message api tok ps p fuel s fields x hs hresp hmsg]
  · exact ⟨"Error listing repositories: ", "", by simp⟩
  · rw [list_org_repos_api_message api tok oid ps p fuel s fields x hs hresp hmsg]
  · exact ⟨"Error listing repositories: ", "", by simp⟩

/-- Witness for C4 at a concrete 404-with-message API. -/
theorem non200_message_in_error_witness :
    ∃ msg, (list_organizations apiMessage "tok" 50 1 1).1 =
      Option.some (PyResult.error msg) ∧ containsSub msg "X" :=
  (non200_message_in_error apiMessage "tok" "oid" 50 1 0 404 [("message", "X")] "X"
    (by decide) rfl rfl).1

/-- C5: with page size 2, two full 2-item pages followed by a 1-item page
make `list_user_repos` return the five mappings built from the items'
`name` keys, in request order. -/
theorem user_repos_five_item_example :
    (list_user_repos apiFive "tok" 2 1 5).1 =
      Option.some (PyResult.ok
        [[("id", "r1"), ("name", "r1")], [("id", "r2"), ("name", "r2")],
         [("id", "r3"), ("name", "r3")], [("id", "r4"), ("name", "r4")],
         [("id", "r5"), ("name", "r5")]]) := rfl

/-- C6: a timeout from the HTTP request makes `list_user_repos` raise an
error with exactly the fixed text, whatever the timeout's own message. -/
theorem user_repos_timeout_fixed_message (api : Nat → ReqResult)
    (tok : String) (ps p fuel : Nat) (m : String)
    (h : api p = ReqResult.timeout m) :
    (list_user_repos api tok ps p (fuel + 1)).1 =
      Option.some (PyResult.error "Error retrieving Github repositories for user.") := by
  rw [list_user_repos_transport api tok ps p fuel m (Or.inl h)]

/-- Witness for C6 at a concrete always-timeout API. -/
theorem user_repos_timeout_fixed_message_witness :
    (list_user_repos apiTimeout "tok" 50 1 1).1 =
      Option.some (PyResult.error "Error retrieving Github repositories for user.") :=
  user_repos_timeout_fixed_message apiTimeout "tok" 50 1 0 "boom" rfl

/-- C9: with page_size = 0 and an API answering every page with a 200
empty JSON array, each page's item count (0) equals page_size, so every
one of the three listing functions recurses forever: for every fuel bound
the fuel-indexed model fails to terminate. -/
theorem page_size_zero_diverges (api : Nat → ReqResult) (tok oid : String)
    (p : Nat) (h : ∀ q, api q = ReqResult.resp 200 (Body.arr [])) :
    ∀ fuel, (list_organizations api tok 0 p fuel).1 = Option.none ∧
      (list_user_repos api tok 0 p fuel).1 = Option.none ∧
      (list_org_repos api tok oid 0 p fuel).1 = Option.none :=
  fun fuel =>
    ⟨list_organizations_empty_diverges api tok h fuel p,
     list_user_repos_empty_diverges api tok h fuel p,
     list_org_repos_empty_diverges api tok oid h fuel p⟩

/-- Witness for C9 at a concrete always-empty-page API and fuel 3. -/
theorem page_size_zero_diverges_witness :
    (list_organizations apiEmptyPages "tok" 0 1 3).1 = Option.none ∧
      (list_user_repos apiEmptyPages "tok" 0 1 3).1 = Option.none ∧
      (list_org_repos apiEmptyPages "tok" "oid" 0 1 3).1 = Option.none :=
  page_size_zero_diverges apiEmptyPages "tok" "oid" 1 (fun _ => rfl) 3


/-- C8: every element of a list returned by any of the three listing
functions is a two-field mapping whose `id` value equals its `name`
value; moreover the loop body builds each such mapping from the
corresponding item's key (`login` for organizations, `name` for
repositories). -/
theorem result_items_id_eq_name (api : Nat → ReqResult) (tok oid : String)
    (ps p fuel : Nat) (l : List Item) :
    ((list_organizations api tok ps p fuel).1 = Option.some (PyResult.ok l) →
      ∀ e ∈ l, ∃ v, e = [("id", v), ("name", v)]) ∧
    ((list_user_repos api tok ps p fuel).1 = Option.some (PyResult.ok l) →
      ∀ e ∈ l, ∃ v, e = [("id", v), ("name", v)]) ∧
    ((list_org_repos api tok oid ps p fuel).1 = Option.some (PyResult.ok l) →
      ∀ e ∈ l, ∃ v, e = [("id", v), ("name", v)]) ∧
    (∀ key items mapped, mapItems key items = Option.some mapped →
      List.Forall₂ (fun it e => ∃ v, lookupKey it key = Option.some v ∧
        e = [("id", v), ("name", v)]) items mapped) :=
  ⟨list_organizations_ok_shape api tok ps fuel p l,
   list_user_repos_ok_shape api tok ps fuel p l,
   list_org_repos_ok_shape api tok oid ps fuel p l,
   fun key items mapped h => mapItems_forall2 key items mapped h⟩

/-- Witness for C8: the first element of the concrete five-item run. -/
theorem result_items_id_eq_name_witness :
    ∃ v, ([("id", "r1"), ("name", "r1")] : Item) = [("id", v), ("name", v)] :=
  (result_items_id_eq_name apiFive "tok" "oid" 2 1 5
      [[("id", "r1"), ("name", "r1")], [("id", "r2"), ("name", "r2")],
       [("id", "r3"), ("name", "r3")], [("id", "r4"), ("name", "r4")],
       [("id", "r5"), ("name", "r5")]]).2.1 rfl
    [("id", "r1"), ("name", "r1")] (List.mem_cons_self _ _)


/-- C7: every request issued by any of the three listing functions
carries the fixed 10-second client-side timeout, and within one call no
page is requested twice: the `page` parameters of the request trace are
pairwise distinct, so there is no retry of any page. -/
theorem requests_timeout10_no_retry (api : Nat → ReqResult) (tok oid : String)
    (ps p fuel : Nat) :
    ((∀ r ∈ (list_organizations api tok ps p fuel).2, r.timeout = 10) ∧
      ((list_organizations api tok ps p fuel).2.map pageOf).Nodup) ∧
    ((∀ r ∈ (list_user_repos api tok ps p fuel).2, r.timeout = 10) ∧
      ((list_user_repos api tok ps p fuel).2.map pageOf).Nodup) ∧
    ((∀ r ∈ (list_org_repos api tok oid ps p fuel).2, r.timeout = 10) ∧
      ((list_org_repos api tok oid ps p fuel).2.map pageOf).Nodup) := by
  obtain ⟨k1, h1⟩ := list_organizations_trace api tok ps fuel p
  obtain ⟨k2, h2⟩ := list_user_repos_trace api tok ps fuel p
  obtain ⟨k3, h3⟩ := list_org_repos_trace api tok oid ps fuel p
  refine ⟨⟨?_, ?_⟩, ⟨?_, ?_⟩, ⟨?_, ?_⟩⟩
  · intro r hr
    rw [h1] at hr
    obtain ⟨i, -, rfl⟩ := List.mem_map.mp hr
    rfl
  · rw [h1]
    exact range_map_pageOf_nodup p k1 (orgsRequest tok ps) (fun q => rfl)
  · intro r hr
    rw [h2] at hr
    obtain ⟨i, -, rfl⟩ := List.mem_map.mp hr
    rfl
  · rw [h2]
    exact range_map_pageOf_nodup p k2 (userReposRequest tok ps) (fun q => rfl)
  · intro r hr
    rw [h3] at hr
    obtain ⟨i, -, rfl⟩ := List.mem_map.mp hr
    rfl
  · rw [h3]
    exact range_map_pageOf_nodup p k3 (orgReposRequest tok oid ps) (fun q => rfl)

end Github

namespace Schemas

/-- C10: `get_int_field` attaches only the caller-supplied extra
validators — no range validator — yet uses the must-be-positive-integer
template as its `invalid` message; with no extra validators it accepts
every integer, zero and negatives included, while rejecting non-integer
input with the positive-integer message. -/
theorem int_field_no_range_validator (name : String) (n : Int) (s : String) :
    (get_int_field name true true Option.none false).validators = [] ∧
    (get_int_field name true true Option.none false).error_invalid =
      fmt must_be_positive_integer name ∧
    deserializeInt (get_int_field name true true Option.none false)
      (Option.some (PyValue.int n)) = Except.ok (Option.some n) ∧
    deserializeInt (get_int_field name true true Option.none false)
      (Option.some (PyValue.str s)) =
      Except.error (fmt must_be_positive_integer name) :=
  ⟨rfl, rfl, rfl, rfl⟩

end Schemas
